import Mathlib

/-!
Verification development for the nara-chess repository.

The client (`src/client/src/App.tsx`) drives a turn-based chess game against
an LLM "oracle" reached through a Go backend.  This file gives a shallow
embedding of the client's game-state transitions (`makePlayerMove`,
`makeLLMMove`, the move-acquisition retry loop `makeRequest`, the chat
round trip `sendMessage`, `handleRetry`) and of the server handler
`HandleGenerateMove` together with `utils.InferSidesFromFEN`, and proves
properties of those definitions.

The chess rules engine (chess.js) is an external collaborator of the
repository; it is represented abstractly as an `Engine` value mapping a FEN
string and a move command to `none` (illegal / unparseable, covering both
the falsy-result and the thrown-exception path of `game.move`) or to the
resulting SAN string and successor FEN.  All repository-side logic is
translated from the source.
-/

namespace NaraChess

/-- Role of a chat entry, mirroring the client's `role: 'user' | 'model'`. -/
inductive ChatRole where
  | user
  | model
deriving DecidableEq, Repr

/-- A chat entry, mirroring the client's `ChatMessage` interface and the
server's `types.ChatMessage`. -/
structure ChatMessage where
  content : String
  role : ChatRole
deriving DecidableEq, Repr

/-- The move descriptor passed by `onDrop` to `makePlayerMove`:
`{ from: sourceSquare, to: targetSquare, promotion: 'q' }`. -/
structure PlayerMoveInput where
  fromSq : String
  toSq : String
  promotion : String
deriving DecidableEq, Repr

/-- A command given to the chess.js `move` method, which accepts either a
from/to/promotion descriptor (human path) or a SAN string (oracle path). -/
inductive MoveCmd where
  | byInput (m : PlayerMoveInput)
  | bySan (s : String)
deriving DecidableEq, Repr

/-- Result of a successful chess.js `move` call: the canonical SAN of the
applied move (`result.san`) and the FEN of the successor position. -/
structure MoveResult where
  san : String
  fenAfter : String
deriving DecidableEq, Repr

/-- The external legality engine (chess.js), consumed as a capability:
given the current FEN and a candidate move it returns the applied move or
`none` when the move is illegal or unparseable (chess.js either returns a
falsy result or throws; `App.tsx` treats both identically). -/
structure Engine where
  move : String → MoveCmd → Option MoveResult

/-- The React state of `App.tsx` that the claims are about: `game` is kept
as its FEN serialization (`game.fen()`), plus `moveHistory`,
`isPlayerTurn`, `isLoading`, `hasError`, `chatMessages`, `llmArrows`,
`title` and `userSide`.  Purely presentational state (`inputValue`, the
scroll ref) is omitted. -/
structure AppState where
  gameFen : String
  moveHistory : List String
  isPlayerTurn : Bool
  isLoading : Bool
  hasError : Bool
  chatMessages : List ChatMessage
  llmArrows : List (List String)
  title : String
  userSide : String
deriving DecidableEq, Repr

/-- Standard initial chess position produced by `new Chess()`. -/
def startFen : String := "rnbqkbnr/pppppppp/8/8/8/8/PPPPPPPP/RNBQKBNR w KQkq - 0 1"

/-- Initial React state of `App`: fresh game, empty history, player to
move, no loading, no error, empty chat, no arrows, empty title, user
plays white. -/
def initState : AppState :=
  { gameFen := startFen
    moveHistory := []
    isPlayerTurn := true
    isLoading := false
    hasError := false
    chatMessages := []
    llmArrows := []
    title := ""
    userSide := "white" }

/-- Embedding of `makePlayerMove` (App.tsx).  Guard: if it is not the
player's turn or a request is loading, return `false` without touching
anything.  Otherwise attempt the move on a copy of the game; on success
replace the game, append `result.san` to the history, flip the turn to
the LLM and return `true`; on an illegal or throwing move return `false`.
The `finally` block clears `llmArrows` on both the success and the
failure path of the attempt (but not on the guard path, which returns
before the `try`).  Note that `hasError` is not modified anywhere in this
function. -/
def makePlayerMove (E : Engine) (m : PlayerMoveInput) (st : AppState) :
    Bool × AppState :=
  if !st.isPlayerTurn || st.isLoading then (false, st)
  else
    match E.move st.gameFen (MoveCmd.byInput m) with
    | some res =>
        (true,
          { st with
            gameFen := res.fenAfter
            moveHistory := st.moveHistory ++ [res.san]
            isPlayerTurn := false
            llmArrows := [] })
    | none => (false, { st with llmArrows := [] })

/-- Embedding of `makeLLMMove` (App.tsx).  Attempts the oracle's SAN
string on a copy of the game.  On success: replace the game, append the
SAN, set `isPlayerTurn` to `true`, return `true`.  On an illegal move or
a thrown error the game and history are untouched, but the source still
executes `setIsPlayerTurn(true)` in both failure branches before
returning `false`. -/
def makeLLMMove (E : Engine) (sanStr : String) (st : AppState) :
    Bool × AppState :=
  match E.move st.gameFen (MoveCmd.bySan sanStr) with
  | some res =>
      (true,
        { st with
          gameFen := res.fenAfter
          moveHistory := st.moveHistory ++ [res.san]
          isPlayerTurn := true })
  | none => (false, { st with isPlayerTurn := true })

/-- Last `n` elements of a list, mirroring the JavaScript `slice(-n)`
(whole list when shorter than `n`). -/
def sliceNeg (n : Nat) (l : List α) : List α := l.drop (l.length - n)

/-- The server's `types.GameStateRequest` (`src/server/pkg/types/types.go`),
which is also the JSON body the client posts to `/generateMove`.  A field
absent from the client's JSON decodes to the Go zero value, so the
client's `{ move_history, fen, chat_history }` object yields
`wrongMove = ""`. -/
structure GameStateRequest where
  moveHistory : List String
  chatHistory : List ChatMessage
  fen : String
  wrongMove : String
deriving DecidableEq, Repr

/-- The server's `types.GameStateResponse`: the oracle's commentary, its
suggested SAN move, optional arrows (pairs of square names, modelled as
string lists) and a title. -/
structure GameStateResponse where
  comment : String
  move : String
  arrows : List (List String)
  title : String
deriving DecidableEq, Repr

/-- The payload built inside `makeRequest` (App.tsx):
`{ move_history: moveHistory, fen: game.fen(), chat_history: chatMessages.slice(-5) }`.
`chatC` is the chat list captured by the effect closure (the payload uses
the captured value on every attempt of one effect run).  No `wrong_move`
key is present in the object, so the server decodes `wrongMove = ""`. -/
def genMovePayload (st : AppState) (chatC : List ChatMessage) :
    GameStateRequest :=
  { moveHistory := st.moveHistory
    chatHistory := sliceNeg 5 chatC
    fen := st.gameFen
    wrongMove := "" }

/-- Outcome of one `fetch("/generateMove")` round trip as seen by the
client: `fail` covers a network error, a non-ok HTTP status and a JSON
parse error (all reach the same `catch` block); `ok` is a parsed
response body. -/
inductive FetchOutcome where
  | fail
  | ok (r : GameStateResponse)
deriving DecidableEq, Repr

/-- Retry ceiling `MAX_RETRIES` from App.tsx. -/
def MAX_RETRIES : Nat := 3

/-- Embedding of the recursive `makeRequest(attempt)` function of the
move-acquisition effect (App.tsx).  `orc` maps an attempt number and the
posted payload to that attempt's fetch outcome.  Ghost output: alongside
the final state, the list of payloads actually posted is returned.

The source recursion is bounded by the entry check
`attempt >= MAX_RETRIES`; here the same bound is carried structurally as
`remaining = MAX_RETRIES - attempt` (see `makeRequest`), so the `0` case
is exactly the `attempt >= MAX_RETRIES` branch: set `hasError`, stop
loading, issue no request.  Otherwise: set loading, post the payload; on
a fetch failure retry with `attempt + 1`; on a parsed response append the
oracle's comment to the chat, then validate via `makeLLMMove`, then set
arrows and title; if validation failed retry with `attempt + 1`,
otherwise stop loading. -/
def makeRequestAux (E : Engine) (orc : Nat → GameStateRequest → FetchOutcome)
    (chatC : List ChatMessage) :
    Nat → Nat → AppState → AppState × List GameStateRequest
  | 0, _, st => ({ st with hasError := true, isLoading := false }, [])
  | remaining + 1, attempt, st =>
      let st1 : AppState := { st with isLoading := true }
      let payload := genMovePayload st1 chatC
      match orc attempt payload with
      | FetchOutcome.fail =>
          let rest := makeRequestAux E orc chatC remaining (attempt + 1) st1
          (rest.1, payload :: rest.2)
      | FetchOutcome.ok r =>
          let st2 : AppState :=
            { st1 with
              chatMessages := st1.chatMessages ++ [⟨r.comment, ChatRole.model⟩] }
          let mres := makeLLMMove E r.move st2
          let st4 : AppState := { mres.2 with llmArrows := r.arrows, title := r.title }
          if mres.1 then ({ st4 with isLoading := false }, [payload])
          else
            let rest := makeRequestAux E orc chatC remaining (attempt + 1) st4
            (rest.1, payload :: rest.2)

/-- Entry point `makeRequest(attempt)` of App.tsx; the effect calls it
as `makeRequest(0)`. -/
def makeRequest (E : Engine) (orc : Nat → GameStateRequest → FetchOutcome)
    (chatC : List ChatMessage) (attempt : Nat) (st : AppState) :
    AppState × List GameStateRequest :=
  makeRequestAux E orc chatC (MAX_RETRIES - attempt) attempt st

/-- Guard of the move-acquisition `useEffect` (App.tsx):
`if (isPlayerTurn || isLoading || moveHistory.length < 1 || hasError) return;`.
The effect is the only place an automatic `/generateMove` request can be
issued, and it fires exactly when this returns `true`. -/
def effectFires (st : AppState) : Bool :=
  !(st.isPlayerTurn || st.isLoading || decide (st.moveHistory.length < 1)
    || st.hasError)

/-- Embedding of `handleRetry` (App.tsx): clears the error flag and hands
the turn to the oracle so the acquisition effect fires again. -/
def handleRetry (st : AppState) : AppState :=
  { st with hasError := false, isPlayerTurn := false }

/-- The JSON body the client posts to `/chat` (`sendMessage` in App.tsx),
decoded by the server into `types.ChatMessageRequest`: the last ten chat
entries including the new one, the game state (only `move_history` and
`fen` are populated, the remaining `GameStateRequest` fields decode to
their zero values), and the player's side. -/
structure ChatRequest where
  messageHistory : List ChatMessage
  gameState : GameStateRequest
  playerSide : String
deriving DecidableEq, Repr

/-- Payload built by `sendMessage` (App.tsx):
`message_history: [...chatMessages, newMessage].slice(-10)`,
`game_state: { move_history, fen }`, `player_side: userSide`. -/
def chatPayload (st : AppState) (newMsg : ChatMessage) : ChatRequest :=
  { messageHistory := sliceNeg 10 (st.chatMessages ++ [newMsg])
    gameState :=
      { moveHistory := st.moveHistory
        chatHistory := []
        fen := st.gameFen
        wrongMove := "" }
    playerSide := st.userSide }

/-- Outcome of one `fetch("/chat")` round trip: `fail` covers a network
error, a non-ok status and a parse error (one shared `catch`); `ok`
carries the parsed `response` text and `arrows`. -/
inductive ChatOutcome where
  | fail
  | ok (response : String) (arrows : List (List String))
deriving DecidableEq, Repr

/-- Embedding of `sendMessage` (App.tsx).  The function has no guard of
any kind: it builds the payload, sets the shared `isLoading` flag, posts
the request (always — the issued payload is returned as the first
component), and on success appends a model-authored chat entry and, when
the `arrows` array is non-empty, replaces `llmArrows`.  The `finally`
block sets `isLoading` to `false` on success and failure alike.  The
game, move history, turn flag and error flag are never touched. -/
def sendMessage (newMsg : ChatMessage) (o : ChatOutcome) (st : AppState) :
    ChatRequest × AppState :=
  let payload := chatPayload st newMsg
  let st1 : AppState := { st with isLoading := true }
  match o with
  | ChatOutcome.fail => (payload, { st1 with isLoading := false })
  | ChatOutcome.ok resp arrows =>
      let st2 : AppState :=
        { st1 with chatMessages := st1.chatMessages ++ [⟨resp, ChatRole.model⟩] }
      let st3 : AppState :=
        if arrows.length ≠ 0 then { st2 with llmArrows := arrows } else st2
      (payload, { st3 with isLoading := false })

/-- Splitting a string at every single space character, the semantics of
Go's `strings.Split(s, " ")` used by `InferSidesFromFEN`
(runs of spaces yield empty fields; the empty string yields one empty
field).  Written structurally over the character list so that it
evaluates by reduction. -/
def splitSpaceAux : List Char → List Char → List String
  | [], acc => [String.mk acc.reverse]
  | c :: cs, acc =>
      if c = ' ' then String.mk acc.reverse :: splitSpaceAux cs []
      else splitSpaceAux cs (c :: acc)

/-- Go `strings.Split(s, " ")`. -/
def splitOnSpace (s : String) : List String := splitSpaceAux s.toList []

/-- Embedding of `utils.InferSidesFromFEN`: split the FEN on spaces; with
fewer than two parts fail; otherwise the second part must be `"w"`
(LLM plays White, pupil Black) or `"b"` (LLM plays Black, pupil White),
anything else fails.  `none` stands for the Go error return. -/
def inferSidesFromFEN (fen : String) : Option (String × String) :=
  let parts := splitOnSpace fen
  if parts.length < 2 then none
  else
    match parts[1]? with
    | some t =>
        if t = "w" then some ("White", "Black")
        else if t = "b" then some ("Black", "White")
        else none
    | none => none

/-- The prompt suffix `HandleGenerateMove` appends for a rejected move:
non-empty exactly when the request's `wrong_move` field is non-empty. -/
def wrongMovePromptSuffix (req : GameStateRequest) : String :=
  if req.wrongMove ≠ "" then
    "\n\nHere, " ++ req.wrongMove ++
      " is an INVALID MOVE. Do not use this in your response."
  else ""

/-- Everything that can come out of the Gemini call and response-parsing
chain in `HandleGenerateMove`: a `context.DeadlineExceeded` error, any
other `GenerateContent` error, an empty/invalid response structure, a
part that is not `genai.Text`, a JSON unmarshalling failure, or a parsed
`GameStateResponse`. -/
inductive OracleOutcome where
  | timeoutErr
  | otherErr
  | emptyResp
  | notText
  | badJson
  | parsed (r : GameStateResponse)
deriving DecidableEq, Repr

/-- Result of one request to the handler: the HTTP status written first
(later superfluous writes do not change what the client sees) and
whether `model.GenerateContent` — the oracle — was called. -/
structure HandlerResult where
  status : Nat
  oracleContacted : Bool
deriving DecidableEq, Repr

/-- The tail of `HandleGenerateMove` from the `GenerateContent` call on:
timeout gives 504 Gateway Timeout, any other generation error 500, an
empty or non-text or unparseable response 500, a parsed response with an
empty `move` field 500, and otherwise 200.  In every case the oracle has
been contacted. -/
def oracleStage (o : OracleOutcome) : HandlerResult :=
  match o with
  | OracleOutcome.timeoutErr => ⟨504, true⟩
  | OracleOutcome.otherErr => ⟨500, true⟩
  | OracleOutcome.emptyResp => ⟨500, true⟩
  | OracleOutcome.notText => ⟨500, true⟩
  | OracleOutcome.badJson => ⟨500, true⟩
  | OracleOutcome.parsed r => if r.move = "" then ⟨500, true⟩ else ⟨200, true⟩

/-- Embedding of `HandleGenerateMove`
(`src/server/pkg/handlers/HandleGenerateMove.go.go`).  `body` is `none`
when the JSON decoder fails, `apiKeySet` models `GEMINI_API_KEY` being
present, `clientOk` models `genai.NewClient` succeeding.  Checks in
source order: method, JSON decoding, the move-history/FEN presence
checks, configuration, client creation, FEN side inference, then the
oracle call.  In the `InferSidesFromFEN` error branch the source writes
`http.Error(w, "Invalid FEN", 400)` but has no `return`, so execution
falls through and still contacts the oracle; the status the client sees
stays 400 (the later `WriteHeader` is superfluous). -/
def handleGenerateMove (method : String) (body : Option GameStateRequest)
    (apiKeySet clientOk : Bool) (o : OracleOutcome) : HandlerResult :=
  if method ≠ "POST" then ⟨405, false⟩
  else
    match body with
    | none => ⟨400, false⟩
    | some req =>
        if req.moveHistory.length = 0 ∧ req.fen = "" then ⟨400, false⟩
        else if req.fen = "" then ⟨400, false⟩
        else if !apiKeySet then ⟨500, false⟩
        else if !clientOk then ⟨500, false⟩
        else
          match inferSidesFromFEN req.fen with
          | none => { oracleStage o with status := 400 }
          | some _ => oracleStage o

/-- States of `App.tsx` reachable from the initial render through the
operations the UI can trigger, exactly as the source gates them: a human
drop at any time (`makePlayerMove` carries its own guard), a full run of
the move-acquisition effect whenever its guard `effectFires` holds (the
effect captures `chatMessages` at fire time and calls `makeRequest(0)`),
and the manual retry button, which is rendered only while
`hasError && !isLoading`. -/
inductive Reach (E : Engine) : AppState → Prop where
  | init : Reach E initState
  | player (m : PlayerMoveInput) (st : AppState) :
      Reach E st → Reach E (makePlayerMove E m st).2
  | oracleTurn (orc : Nat → GameStateRequest → FetchOutcome) (st : AppState) :
      Reach E st → effectFires st = true →
      Reach E (makeRequest E orc st.chatMessages 0 st).1
  | retry (st : AppState) :
      Reach E st → st.hasError = true → st.isLoading = false →
      Reach E (handleRetry st)

/-- Restriction of `Reach` to runs in which every fired acquisition
effect ends in success (its result carries no error flag), i.e. runs
without an exhausted-retries failure.  The retry button never becomes
reachable in such runs but is kept, still behind its UI gate. -/
inductive ReachOk (E : Engine) : AppState → Prop where
  | init : ReachOk E initState
  | player (m : PlayerMoveInput) (st : AppState) :
      ReachOk E st → ReachOk E (makePlayerMove E m st).2
  | oracleTurn (orc : Nat → GameStateRequest → FetchOutcome) (st : AppState) :
      ReachOk E st → effectFires st = true →
      (makeRequest E orc st.chatMessages 0 st).1.hasError = false →
      ReachOk E (makeRequest E orc st.chatMessages 0 st).1
  | retry (st : AppState) :
      ReachOk E st → st.hasError = true → st.isLoading = false →
      ReachOk E (handleRetry st)

section Fixtures

/-- FEN after 1. e4 from the initial position. -/
def fenAfterE4 : String :=
  "rnbqkbnr/pppppppp/8/8/4P3/8/PPPP1PPP/RNBQKBNR b KQkq e3 0 1"

/-- FEN after 1. e4 e5. -/
def fenAfterE4E5 : String :=
  "rnbqkbnr/pppp1ppp/8/4p3/4P3/8/PPPP1PPP/RNBQKBNR w KQkq e6 0 2"

/-- A tiny concrete instance of the chess.js capability, enough for the
concrete scenarios used below: from the initial position the drop
e2 to e4 is legal (SAN `e4`); after 1. e4 the SAN reply `e5` is legal;
everything else — in particular the malformed SAN `Qh9` — is rejected. -/
def E1 : Engine where
  move fen cmd :=
    if fen = startFen ∧ cmd = MoveCmd.byInput ⟨"e2", "e4", "q"⟩ then
      some ⟨"e4", fenAfterE4⟩
    else if fen = fenAfterE4 ∧ cmd = MoveCmd.bySan "e5" then
      some ⟨"e5", fenAfterE4E5⟩
    else none

/-- An engine that rejects every move. -/
def Etriv : Engine where
  move _ _ := none

/-- The drop the board reports for 1. e4 (promotion defaults to queen). -/
def mvE4 : PlayerMoveInput := ⟨"e2", "e4", "q"⟩

/-- State after the human plays 1. e4 from the initial state. -/
def stAfterE4 : AppState := (makePlayerMove E1 mvE4 initState).2

/-- A parsed oracle response suggesting the malformed move `Qh9`. -/
def respQh9 : GameStateResponse := ⟨"a bold idea", "Qh9", [], "Opening"⟩

/-- An oracle that always answers with the malformed move `Qh9`. -/
def orcQh9 : Nat → GameStateRequest → FetchOutcome :=
  fun _ _ => FetchOutcome.ok respQh9

/-- An oracle whose every attempt fails in transport. -/
def orcNetFail : Nat → GameStateRequest → FetchOutcome :=
  fun _ _ => FetchOutcome.fail

/-- The state in which the retry loop has exhausted all three `Qh9`
attempts after 1. e4: the run of the acquisition effect from
`stAfterE4` against `orcQh9`. -/
def stBroken : AppState :=
  (makeRequest E1 orcQh9 stAfterE4.chatMessages 0 stAfterE4).1

/-- The payload the client posts on every attempt of that run. -/
def pQ : GameStateRequest := genMovePayload stAfterE4 []

/-- A human-turn state carrying the terminal error flag (as reached after
three illegal-move oracle attempts followed by a manual reset of history
— or, concretely, any state rendering the retry button while the board
accepts input). -/
def stErrHuman : AppState := { initState with hasError := true }

/-- A state with a move-acquisition request outstanding (`isLoading`)
while it is the oracle's turn. -/
def stBusy : AppState := { stAfterE4 with isLoading := true }

/-- A user-authored chat entry. -/
def msgHi : ChatMessage := ⟨"what should I play?", ChatRole.user⟩

/-- Predicate over one fetch outcome: the attempt fails, either in
transport/parsing (`fail`) or because the suggested move is rejected by
the legality engine at the position `fen`. -/
def attemptFails (E : Engine) (fen : String) : FetchOutcome → Prop
  | FetchOutcome.fail => True
  | FetchOutcome.ok r => E.move fen (MoveCmd.bySan r.move) = none

/-- The state from which the retry recursion continues after a parsed
response `r` whose move was rejected: loading still set, the oracle's
comment appended to the chat as a model entry (this happens before the
move is validated), the turn flag set by the failing `makeLLMMove`, and
arrows and title taken from the response.  This is exactly the
accumulated effect of the source's `setChatMessages` /
`makeLLMMove`-failure / `setLLMArrows` / `setTitle` sequence within one
failed attempt of `makeRequest`. -/
def c10Next (st : AppState) (r : GameStateResponse) : AppState :=
  { st with
    isLoading := true
    isPlayerTurn := true
    chatMessages := st.chatMessages ++ [⟨r.comment, ChatRole.model⟩]
    llmArrows := r.arrows
    title := r.title }

/-- A `/generateMove` request whose FEN has no side-to-move field. -/
def c9Req : GameStateRequest :=
  { moveHistory := ["e4"]
    chatHistory := []
    fen := "rnbqkbnr/pppppppp/8/8/4P3/8/PPPP1PPP/RNBQKBNR"
    wrongMove := "" }

/-- A well-formed oracle response for the request above. -/
def c9Resp : GameStateResponse := ⟨"fine position", "e5", [], "Opening"⟩

/-- A well-formed `/generateMove` request (valid FEN with side to move). -/
def c7Req : GameStateRequest :=
  { moveHistory := []
    chatHistory := []
    fen := "k7/8/8/8/8/8/8/K7 w - - 0 1"
    wrongMove := "" }

/-- A parsed oracle response whose `move` field is empty. -/
def respNoMove : GameStateResponse := ⟨"hmm", "", [], ""⟩

end Fixtures

/-! Helper lemmas about the retry recursion. -/

/-- When every oracle attempt fails (in transport or by an illegal move
against the current position), the retry recursion ends with the error
flag set, loading cleared, and the game and move history untouched. -/
theorem makeRequestAux_allFail (E : Engine)
    (orc : Nat → GameStateRequest → FetchOutcome) (chatC : List ChatMessage) :
    ∀ (remaining attempt : Nat) (st : AppState),
      (∀ k p, attemptFails E st.gameFen (orc k p)) →
      (makeRequestAux E orc chatC remaining attempt st).1.hasError = true ∧
      (makeRequestAux E orc chatC remaining attempt st).1.isLoading = false ∧
      (makeRequestAux E orc chatC remaining attempt st).1.moveHistory = st.moveHistory ∧
      (makeRequestAux E orc chatC remaining attempt st).1.gameFen = st.gameFen := by
  intro remaining
  induction remaining with
  | zero => intro attempt st h; simp [makeRequestAux]
  | succ n ih =>
      intro attempt st h
      have hk := h attempt (genMovePayload { st with isLoading := true } chatC)
      cases hko : orc attempt (genMovePayload { st with isLoading := true } chatC) with
      | fail =>
          have hrec := ih (attempt + 1) { st with isLoading := true } h
          simpa [makeRequestAux, hko] using hrec
      | ok r =>
          rw [hko] at hk
          have hn : E.move st.gameFen (MoveCmd.bySan r.move) = none := hk
          have hrec := ih (attempt + 1)
            { st with
              isLoading := true
              chatMessages := st.chatMessages ++ [⟨r.comment, ChatRole.model⟩]
              isPlayerTurn := true
              llmArrows := r.arrows
              title := r.title } h
          simpa [makeRequestAux, hko, makeLLMMove, hn] using hrec

/-- When the retry recursion ends without the error flag, some attempt
succeeded: exactly one SAN entry was appended to the move history and
the turn flag was handed back to the player. -/
theorem makeRequestAux_success (E : Engine)
    (orc : Nat → GameStateRequest → FetchOutcome) (chatC : List ChatMessage) :
    ∀ (remaining attempt : Nat) (st : AppState),
      (makeRequestAux E orc chatC remaining attempt st).1.hasError = false →
      ∃ s, (makeRequestAux E orc chatC remaining attempt st).1.moveHistory
            = st.moveHistory ++ [s] ∧
        (makeRequestAux E orc chatC remaining attempt st).1.isPlayerTurn = true := by
  intro remaining
  induction remaining with
  | zero => intro attempt st h; simp [makeRequestAux] at h
  | succ n ih =>
      intro attempt st h
      cases hko : orc attempt (genMovePayload { st with isLoading := true } chatC) with
      | fail =>
          rw [makeRequestAux] at h ⊢
          simp only [hko] at h ⊢
          exact ih (attempt + 1) { st with isLoading := true } h
      | ok r =>
          cases hm : E.move st.gameFen (MoveCmd.bySan r.move) with
          | some res =>
              rw [makeRequestAux] at h ⊢
              simp only [hko, makeLLMMove] at h ⊢
              exact ⟨res.san, by simp [hm], by simp [hm]⟩
          | none =>
              rw [makeRequestAux] at h ⊢
              simp only [hko, makeLLMMove, hm] at h ⊢
              exact ih (attempt + 1) _ h

/-- Every payload posted by the retry recursion has an empty `wrong_move`
field and carries the (captured) move history, FEN and five-entry chat
window. -/
theorem makeRequestAux_trace (E : Engine)
    (orc : Nat → GameStateRequest → FetchOutcome) (chatC : List ChatMessage) :
    ∀ (remaining attempt : Nat) (st : AppState) (q : GameStateRequest),
      q ∈ (makeRequestAux E orc chatC remaining attempt st).2 →
      q.wrongMove = "" ∧ q.fen = st.gameFen ∧ q.moveHistory = st.moveHistory ∧
      q.chatHistory = sliceNeg 5 chatC := by
  intro remaining
  induction remaining with
  | zero => intro attempt st q hq; simp [makeRequestAux] at hq
  | succ n ih =>
      intro attempt st q hq
      cases hko : orc attempt (genMovePayload { st with isLoading := true } chatC) with
      | fail =>
          rw [makeRequestAux] at hq
          simp only [hko, List.mem_cons] at hq
          cases hq with
          | inl hq => subst hq; exact ⟨rfl, rfl, rfl, rfl⟩
          | inr hq => exact ih (attempt + 1) { st with isLoading := true } q hq
      | ok r =>
          cases hm : E.move st.gameFen (MoveCmd.bySan r.move) with
          | some res =>
              rw [makeRequestAux] at hq
              simp only [hko, makeLLMMove, hm, if_true, List.mem_singleton] at hq
              subst hq; exact ⟨rfl, rfl, rfl, rfl⟩
          | none =>
              rw [makeRequestAux] at hq
              simp only [hko, makeLLMMove, hm, if_false] at hq
              cases hq with
              | head => exact ⟨rfl, rfl, rfl, rfl⟩
              | tail _ hq =>
                  exact ih (attempt + 1)
                    { st with
                      isLoading := true
                      isPlayerTurn := true
                      chatMessages :=
                        st.chatMessages ++ [⟨r.comment, ChatRole.model⟩]
                      llmArrows := r.arrows
                      title := r.title } q hq

/-! Claim theorems. -/

/-- Claim C1, counterexample.  The claim states that on an illegal or
unparseable oracle move `makeLLMMove` leaves Position, MoveHistory and
TurnOwner unchanged, with TurnOwner remaining Oracle
(`isPlayerTurn = false`).  At the concrete oracle-turn state after
1. e4, the rejected SAN `Qh9` does return the failure signal, but the
code executes `setIsPlayerTurn(true)` on the failure path: the turn flag
does not keep its prior value, so the state is not unchanged. -/
theorem c1_counterexample :
    E1.move stAfterE4.gameFen (MoveCmd.bySan "Qh9") = none ∧
    stAfterE4.isPlayerTurn = false ∧
    (makeLLMMove E1 "Qh9" stAfterE4).1 = false ∧
    (makeLLMMove E1 "Qh9" stAfterE4).2.isPlayerTurn = true ∧
    (makeLLMMove E1 "Qh9" stAfterE4).2 ≠ stAfterE4 := by
  decide

/-- Claim C1, amended.  For every oracle move string rejected by the
legality engine, `makeLLMMove` leaves the position and the move history
unchanged and returns the failure signal `false` (no exception escapes),
but it sets `isPlayerTurn` to `true` rather than leaving the turn with
the oracle. -/
theorem c1_llm_rejection_state (E : Engine) (sanStr : String) (st : AppState)
    (h : E.move st.gameFen (MoveCmd.bySan sanStr) = none) :
    makeLLMMove E sanStr st = (false, { st with isPlayerTurn := true }) := by
  simp [makeLLMMove, h]

/-- Witness for `c1_llm_rejection_state` at the state after 1. e4 and the
rejected SAN `Qh9`. -/
theorem c1_llm_rejection_state_witness :
    makeLLMMove E1 "Qh9" stAfterE4 =
      (false, { stAfterE4 with isPlayerTurn := true }) :=
  c1_llm_rejection_state E1 "Qh9" stAfterE4 (by decide)

/-- Claim C2, counterexample.  The claim states that every retry request
carries the previously rejected move in its `wrong_move` field.  In the
concrete run after 1. e4 in which the oracle answers `Qh9` three times,
three requests are posted (attempts 0, 1 and 2 — the last two are
retries after a rejection), and every one of them has an empty
`wrong_move` field. -/
theorem c2_counterexample :
    (makeRequest E1 orcQh9 stAfterE4.chatMessages 0 stAfterE4).2 = [pQ, pQ, pQ] ∧
    pQ.wrongMove = "" := by
  decide

/-- Claim C2, amended.  Every request the acquisition loop posts — first
attempt and retries alike — carries the move history, the current FEN
and the bounded five-entry chat window, but its `wrong_move` field is
always empty: the client never feeds the rejected move back, so the
server-side prompt warning (which is added only for a non-empty
`wrong_move`) is never produced for the client's requests. -/
theorem c2_retry_payload (E : Engine)
    (orc : Nat → GameStateRequest → FetchOutcome) (chatC : List ChatMessage)
    (attempt : Nat) (st : AppState) (q : GameStateRequest)
    (hq : q ∈ (makeRequest E orc chatC attempt st).2) :
    q.wrongMove = "" ∧ q.fen = st.gameFen ∧ q.moveHistory = st.moveHistory ∧
    q.chatHistory = sliceNeg 5 chatC ∧ wrongMovePromptSuffix q = "" := by
  obtain ⟨h1, h2, h3, h4⟩ :=
    makeRequestAux_trace E orc chatC (MAX_RETRIES - attempt) attempt st q hq
  exact ⟨h1, h2, h3, h4, by simp [wrongMovePromptSuffix, h1]⟩

/-- Witness for `c2_retry_payload` at the concrete three-attempt run. -/
theorem c2_retry_payload_witness :
    pQ.wrongMove = "" ∧ pQ.fen = stAfterE4.gameFen ∧
    pQ.moveHistory = stAfterE4.moveHistory ∧
    pQ.chatHistory = sliceNeg 5 stAfterE4.chatMessages ∧
    wrongMovePromptSuffix pQ = "" :=
  c2_retry_payload E1 orcQh9 stAfterE4.chatMessages 0 stAfterE4 pQ (by decide)

/-- Claim C3.  When all `MAX_RETRIES` (3) oracle attempts of one
acquisition run fail — each either in transport/parsing or because the
suggested move is rejected — the run ends with the error flag set
(`Failed`), the move history exactly as it was when the oracle's turn
began, and the acquisition effect's guard no longer fires, so no further
automatic request is issued while in that state. -/
theorem c3_exhausted_retries (E : Engine)
    (orc : Nat → GameStateRequest → FetchOutcome) (chatC : List ChatMessage)
    (st : AppState) (h : ∀ k p, attemptFails E st.gameFen (orc k p)) :
    MAX_RETRIES = 3 ∧
    (makeRequest E orc chatC 0 st).1.hasError = true ∧
    (makeRequest E orc chatC 0 st).1.moveHistory = st.moveHistory ∧
    effectFires (makeRequest E orc chatC 0 st).1 = false := by
  obtain ⟨h1, h2, h3, h4⟩ :=
    makeRequestAux_allFail E orc chatC (MAX_RETRIES - 0) 0 st h
  have h1' : (makeRequest E orc chatC 0 st).1.hasError = true := h1
  refine ⟨rfl, h1', h3, ?_⟩
  simp [effectFires, h1']

/-- Witness for `c3_exhausted_retries`: after 1. e4, an oracle that
answers the illegal `Qh9` on every attempt. -/
theorem c3_exhausted_retries_witness :
    MAX_RETRIES = 3 ∧
    (makeRequest E1 orcQh9 stAfterE4.chatMessages 0 stAfterE4).1.hasError = true ∧
    (makeRequest E1 orcQh9 stAfterE4.chatMessages 0 stAfterE4).1.moveHistory
      = stAfterE4.moveHistory ∧
    effectFires (makeRequest E1 orcQh9 stAfterE4.chatMessages 0 stAfterE4).1
      = false :=
  c3_exhausted_retries E1 orcQh9 stAfterE4.chatMessages stAfterE4
    (fun _ _ =>
      (by decide :
        E1.move stAfterE4.gameFen (MoveCmd.bySan respQh9.move) = none))

/-- Claim C5, counterexample.  The claim states that an accepted legal
human move also clears any terminal error state.  At a human-turn state
carrying the error flag (retry button shown, board enabled), the legal
drop e2-e4 is accepted, yet `makePlayerMove` never touches `hasError`:
the flag is still set afterwards. -/
theorem c5_counterexample :
    stErrHuman.isPlayerTurn = true ∧ stErrHuman.isLoading = false ∧
    stErrHuman.hasError = true ∧
    E1.move stErrHuman.gameFen (MoveCmd.byInput mvE4) = some ⟨"e4", fenAfterE4⟩ ∧
    (makePlayerMove E1 mvE4 stErrHuman).1 = true ∧
    (makePlayerMove E1 mvE4 stErrHuman).2.hasError = true := by
  decide

/-- Claim C5, amended.  For every legal candidate move accepted when it
is the human's turn (and no request is loading), `makePlayerMove`
appends exactly the move's SAN to the history, replaces the position,
flips the turn to the oracle and clears the arrows — but leaves the
error flag exactly as it was (only the manual retry button clears it). -/
theorem c5_player_move_effects (E : Engine) (m : PlayerMoveInput)
    (st : AppState) (res : MoveResult)
    (hTurn : st.isPlayerTurn = true) (hLoad : st.isLoading = false)
    (hMv : E.move st.gameFen (MoveCmd.byInput m) = some res) :
    makePlayerMove E m st =
      (true,
        { st with
          gameFen := res.fenAfter
          moveHistory := st.moveHistory ++ [res.san]
          isPlayerTurn := false
          llmArrows := [] }) ∧
    (makePlayerMove E m st).2.hasError = st.hasError := by
  constructor
  · simp [makePlayerMove, hTurn, hLoad, hMv]
  · simp [makePlayerMove, hTurn, hLoad, hMv]

/-- Witness for `c5_player_move_effects` at the error-flagged human-turn
state. -/
theorem c5_player_move_effects_witness :
    makePlayerMove E1 mvE4 stErrHuman =
      (true,
        { stErrHuman with
          gameFen := fenAfterE4
          moveHistory := stErrHuman.moveHistory ++ ["e4"]
          isPlayerTurn := false
          llmArrows := [] }) ∧
    (makePlayerMove E1 mvE4 stErrHuman).2.hasError = stErrHuman.hasError :=
  c5_player_move_effects E1 mvE4 stErrHuman ⟨"e4", fenAfterE4⟩ rfl rfl (by decide)

/-- Claim C6.  For every human candidate move rejected by the legality
engine (illegal or malformed — chess.js returning a falsy result or
throwing are handled identically), `makePlayerMove` returns the
rejection signal `false` and leaves the GameSession state — position,
move history, turn flag — and the error flag unchanged; no exception
escapes into game state. -/
theorem c6_player_move_rejected (E : Engine) (m : PlayerMoveInput)
    (st : AppState) (h : E.move st.gameFen (MoveCmd.byInput m) = none) :
    (makePlayerMove E m st).1 = false ∧
    (makePlayerMove E m st).2.gameFen = st.gameFen ∧
    (makePlayerMove E m st).2.moveHistory = st.moveHistory ∧
    (makePlayerMove E m st).2.isPlayerTurn = st.isPlayerTurn ∧
    (makePlayerMove E m st).2.hasError = st.hasError := by
  by_cases hg : (!st.isPlayerTurn || st.isLoading) = true
  · simp [makePlayerMove, hg]
  · simp [makePlayerMove, hg, h]

/-- Witness for `c6_player_move_rejected`: from the initial position the
drop e7-e5 (an opponent pawn) is rejected and nothing changes. -/
theorem c6_player_move_rejected_witness :
    (makePlayerMove E1 ⟨"e7", "e5", "q"⟩ initState).1 = false ∧
    (makePlayerMove E1 ⟨"e7", "e5", "q"⟩ initState).2.gameFen = initState.gameFen ∧
    (makePlayerMove E1 ⟨"e7", "e5", "q"⟩ initState).2.moveHistory
      = initState.moveHistory ∧
    (makePlayerMove E1 ⟨"e7", "e5", "q"⟩ initState).2.isPlayerTurn
      = initState.isPlayerTurn ∧
    (makePlayerMove E1 ⟨"e7", "e5", "q"⟩ initState).2.hasError
      = initState.hasError :=
  c6_player_move_rejected E1 ⟨"e7", "e5", "q"⟩ initState (by decide)

/-- Claim C7.  The `/generateMove` handler rejects a malformed JSON body
with 400 without contacting the oracle; rejects a request whose `fen`
field is missing (decodes to the empty string) with 400 without
contacting the oracle; answers a Gemini timeout with the distinct 504
status; and answers a parsed oracle response whose `move` field is empty
with 500. -/
theorem c7_handler_statuses (aK cO : Bool) (o : OracleOutcome)
    (req : GameStateRequest) (r : GameStateResponse)
    (hfen : inferSidesFromFEN req.fen ≠ none) (hmv : r.move = "") :
    handleGenerateMove "POST" none aK cO o = ⟨400, false⟩ ∧
    handleGenerateMove "POST" (some { req with fen := "" }) aK cO o
      = ⟨400, false⟩ ∧
    handleGenerateMove "POST" (some req) true true OracleOutcome.timeoutErr
      = ⟨504, true⟩ ∧
    handleGenerateMove "POST" (some req) true true (OracleOutcome.parsed r)
      = ⟨500, true⟩ := by
  have hne : req.fen ≠ "" := by
    intro he
    apply hfen
    rw [he]
    decide
  obtain ⟨sides, hsides⟩ := Option.ne_none_iff_exists'.mp hfen
  refine ⟨rfl, ?_, ?_, ?_⟩
  · by_cases hl : req.moveHistory.length = 0 <;>
      simp [handleGenerateMove, hl]
  · simp [handleGenerateMove, hne, hsides, oracleStage]
  · simp [handleGenerateMove, hne, hsides, oracleStage, hmv]

/-- Witness for `c7_handler_statuses` with a concrete valid-FEN request
and the empty-move response. -/
theorem c7_handler_statuses_witness :
    handleGenerateMove "POST" none true true OracleOutcome.otherErr
      = ⟨400, false⟩ ∧
    handleGenerateMove "POST" (some { c7Req with fen := "" }) true true
        OracleOutcome.otherErr = ⟨400, false⟩ ∧
    handleGenerateMove "POST" (some c7Req) true true OracleOutcome.timeoutErr
      = ⟨504, true⟩ ∧
    handleGenerateMove "POST" (some c7Req) true true
        (OracleOutcome.parsed respNoMove) = ⟨500, true⟩ :=
  c7_handler_statuses true true OracleOutcome.otherErr c7Req respNoMove
    (by decide) rfl

/-- Claim C8, counterexample.  The claim states that sending a chat
message (including a failing one) does not change MoveAcquisitionLoop
state.  But `sendMessage` writes the shared `isLoading` flag — the very
flag the acquisition loop uses both as its AwaitingResponse indicator
and as its request gate.  Concretely, with a move-acquisition request
outstanding (`isLoading = true`), a completed (here: failed) chat round
resets the flag, and the acquisition effect's gate flips from blocked to
firing, permitting a duplicate automatic request for the same oracle
turn. -/
theorem c8_counterexample :
    stBusy.isLoading = true ∧
    (sendMessage msgHi ChatOutcome.fail stBusy).2.isLoading = false ∧
    effectFires stBusy = false ∧
    effectFires (sendMessage msgHi ChatOutcome.fail stBusy).2 = true := by
  decide

/-- Claim C8, amended.  A chat round trip never changes the GameSession
state (position, move history, turn flag) nor the terminal error flag,
and it is issued unconditionally — the posted payload is produced for
every state, outstanding move request or not — but it does write the
shared `isLoading` flag, which ends up `false` when the round completes
regardless of its prior value. -/
theorem c8_chat_frame (m : ChatMessage) (o : ChatOutcome) (st : AppState) :
    (sendMessage m o st).1 = chatPayload st m ∧
    (sendMessage m o st).2.gameFen = st.gameFen ∧
    (sendMessage m o st).2.moveHistory = st.moveHistory ∧
    (sendMessage m o st).2.isPlayerTurn = st.isPlayerTurn ∧
    (sendMessage m o st).2.hasError = st.hasError ∧
    (sendMessage m o st).2.isLoading = false := by
  cases o with
  | fail => simp [sendMessage]
  | ok resp arrows =>
      by_cases ha : arrows.length ≠ 0 <;> simp [sendMessage, ha]

/-- Claim C9.  For a request whose FEN lacks a side-to-move field the
handler does write the client-error status 400 ("Invalid FEN") — but,
because the `http.Error` call in `HandleGenerateMove` is not followed by
a `return`, execution falls through and the oracle is still contacted,
contradicting the expectation that side inference gates the oracle
call.  Every other error branch of the handler does return; the missing
`return` is a slip. -/
theorem c9_invalid_fen_still_contacts_oracle :
    inferSidesFromFEN c9Req.fen = none ∧
    handleGenerateMove "POST" (some c9Req) true true
        (OracleOutcome.parsed c9Resp)
      = ⟨400, true⟩ := by
  decide

/-- Claim C10.  Within one attempt of the acquisition loop whose fetch
parses successfully but whose suggested move the engine rejects, the
oracle's comment is appended to the chat as a model entry before the
move is validated: the recursion continues at the next attempt from a
state whose chat log has grown by exactly that one entry (and whose move
history is untouched), while the attempt's payload is recorded as
posted. -/
theorem c10_coach_before_validation (E : Engine)
    (orc : Nat → GameStateRequest → FetchOutcome) (chatC : List ChatMessage)
    (remaining attempt : Nat) (st : AppState) (r : GameStateResponse)
    (hok : orc attempt (genMovePayload st chatC) = FetchOutcome.ok r)
    (hbad : E.move st.gameFen (MoveCmd.bySan r.move) = none) :
    makeRequestAux E orc chatC (remaining + 1) attempt st =
      ((makeRequestAux E orc chatC remaining (attempt + 1) (c10Next st r)).1,
        genMovePayload st chatC ::
          (makeRequestAux E orc chatC remaining (attempt + 1) (c10Next st r)).2) ∧
    (c10Next st r).chatMessages
      = st.chatMessages ++ [⟨r.comment, ChatRole.model⟩] ∧
    (c10Next st r).moveHistory = st.moveHistory := by
  refine ⟨?_, rfl, rfl⟩
  rw [makeRequestAux]
  have hok' : orc attempt (genMovePayload { st with isLoading := true } chatC)
      = FetchOutcome.ok r := hok
  simp only [hok', makeLLMMove, hbad, if_false]
  rfl

/-- Witness for `c10_coach_before_validation` at the first attempt of the
concrete `Qh9` run after 1. e4. -/
theorem c10_coach_before_validation_witness :
    makeRequestAux E1 orcQh9 stAfterE4.chatMessages 3 0 stAfterE4 =
      ((makeRequestAux E1 orcQh9 stAfterE4.chatMessages 2 1
          (c10Next stAfterE4 respQh9)).1,
        genMovePayload stAfterE4 stAfterE4.chatMessages ::
          (makeRequestAux E1 orcQh9 stAfterE4.chatMessages 2 1
              (c10Next stAfterE4 respQh9)).2) ∧
    (c10Next stAfterE4 respQh9).chatMessages
      = stAfterE4.chatMessages ++ [⟨respQh9.comment, ChatRole.model⟩] ∧
    (c10Next stAfterE4 respQh9).moveHistory = stAfterE4.moveHistory :=
  c10_coach_before_validation E1 orcQh9 stAfterE4.chatMessages 2 0 stAfterE4
    respQh9 rfl (by decide)

/-- In every state reachable without an exhausted-retries failure, the
turn flag agrees with the parity of the move history and the error flag
is clear.  Auxiliary invariant for claim C4. -/
theorem reachOk_inv (E : Engine) (st : AppState) (h : ReachOk E st) :
    (st.isPlayerTurn = true ↔ st.moveHistory.length % 2 = 0) ∧
    st.hasError = false := by
  induction h with
  | init => exact ⟨by simp [initState], rfl⟩
  | player m st' h' ih =>
      obtain ⟨hp, he⟩ := ih
      by_cases hg : (!st'.isPlayerTurn || st'.isLoading) = true
      · simpa [makePlayerMove, hg] using ⟨hp, he⟩
      · have hpt : st'.isPlayerTurn = true := by
          cases hb : st'.isPlayerTurn
          · exact absurd (by simp [hb]) hg
          · rfl
        cases hm : E.move st'.gameFen (MoveCmd.byInput m) with
        | some res =>
            have heven : st'.moveHistory.length % 2 = 0 := hp.mp hpt
            have hres : makePlayerMove E m st' =
                (true,
                  { st' with
                    gameFen := res.fenAfter
                    moveHistory := st'.moveHistory ++ [res.san]
                    isPlayerTurn := false
                    llmArrows := [] }) := by
              simp [makePlayerMove, hg, hm]
            rw [hres]
            refine ⟨?_, he⟩
            show false = true ↔ (st'.moveHistory ++ [res.san]).length % 2 = 0
            rw [List.length_append, List.length_singleton]
            constructor
            · intro hfalse; exact (Bool.false_ne_true hfalse).elim
            · intro hlen; exact absurd hlen (by omega)
        | none =>
            have hres : makePlayerMove E m st' =
                (false, { st' with llmArrows := [] }) := by
              simp [makePlayerMove, hg, hm]
            rw [hres]
            exact ⟨hp, he⟩
  | oracleTurn orc st' h' hf hsucc ih =>
      obtain ⟨hp, he⟩ := ih
      have hguard := by simpa [effectFires, Bool.or_eq_true, not_or] using hf
      have hptf : st'.isPlayerTurn = false := hguard.1.1.1
      have hodd : st'.moveHistory.length % 2 = 1 := by
        rcases Nat.mod_two_eq_zero_or_one st'.moveHistory.length with h0 | h1
        · exact absurd (hp.mpr h0) (by simp [hptf])
        · exact h1
      obtain ⟨s, hh, hpt⟩ :=
        makeRequestAux_success E orc st'.chatMessages (MAX_RETRIES - 0) 0 st' hsucc
      refine ⟨?_, hsucc⟩
      have hh' : (makeRequest E orc st'.chatMessages 0 st').1.moveHistory
          = st'.moveHistory ++ [s] := hh
      have hpt' : (makeRequest E orc st'.chatMessages 0 st').1.isPlayerTurn
          = true := hpt
      rw [hh', hpt']
      simp only [List.length_append, List.length_singleton]
      constructor
      · intro _; omega
      · intro _; trivial
  | retry st' h' herr hload ih =>
      exact absurd herr (by simp [ih.2])

/-- Claim C4, counterexample.  The claim states that in every reachable
state the turn flag is `true` exactly when the move history has even
length.  The state reached by 1. e4 followed by an acquisition run whose
three attempts all suggest the rejected `Qh9` is reachable, yet has
`isPlayerTurn = true` (set by the failing `makeLLMMove` calls) with a
move history of odd length 1. -/
theorem c4_counterexample :
    Reach E1 stBroken ∧ stBroken.isPlayerTurn = true ∧
    stBroken.moveHistory.length % 2 = 1 := by
  refine ⟨?_, by decide, by decide⟩
  exact Reach.oracleTurn orcQh9 stAfterE4
    (Reach.player mvE4 initState Reach.init) (by decide)

/-- Claim C4, amended.  The parity invariant — TurnOwner is Human
(`isPlayerTurn = true`) iff the move history has even length — holds in
every state reachable from game start through human move attempts,
manual retry, and acquisition runs that end in success; a failed oracle
move application breaks it by setting the turn flag with an unchanged
(odd) history, as the counterexample shows. -/
theorem c4_turn_parity (E : Engine) (st : AppState) (h : ReachOk E st) :
    st.isPlayerTurn = true ↔ st.moveHistory.length % 2 = 0 :=
  (reachOk_inv E st h).1

/-- Witness for `c4_turn_parity` at the reachable state after 1. e4. -/
theorem c4_turn_parity_witness :
    stAfterE4.isPlayerTurn = true ↔ stAfterE4.moveHistory.length % 2 = 0 :=
  c4_turn_parity E1 stAfterE4 (ReachOk.player mvE4 initState ReachOk.init)

end NaraChess
